import Mathlib

/-!
Verification of the coin detection-and-classification pipeline
(ContadorMoedas, color-aware variant).

The pixel- and currency-level arithmetic of the source is embedded over `ℚ`
(the C++ code uses `float`/`double`; every constant and comparison appearing
in the claims is exact in both models).  Out-of-scope vision collaborators
(grayscale conversion, denoising, Hough circle detection, mean HSV sampling,
drawing) are abstract functions gathered in `VisaoExterna`; the in-scope
decision logic is translated function-by-function from the source.
-/

namespace ContadorMoedas

/-- A point in pixel space (`cv::Point2f`). -/
structure Ponto where
  x : ℚ
  y : ℚ
deriving DecidableEq

/-- A detected circle (`cv::Vec3f`: center x, center y, radius). -/
structure Circulo where
  centro : Ponto
  raio : ℚ
deriving DecidableEq

/-- `enum class TipoMoeda` from the source. -/
inductive TipoMoeda where
  | CINCO_CENTAVOS
  | DEZ_CENTAVOS
  | VINTE_CINCO_CENTAVOS
  | CINQUENTA_CENTAVOS
  | UM_REAL
  | DESCONHECIDA
deriving DecidableEq

/-- `enum class CorMoeda` from the source. -/
inductive CorMoeda where
  | DOURADA
  | PRATEADA
  | BIMETALICA
deriving DecidableEq

/-- `const float RAIO_1_REAL_MM = 13.5f` -/
def RAIO_1_REAL_MM : ℚ := 27/2

/-- `const float RAIO_25_CENTAVOS_MM = 12.5f` -/
def RAIO_25_CENTAVOS_MM : ℚ := 25/2

/-- `const float RAIO_50_CENTAVOS_MM = 11.5f` -/
def RAIO_50_CENTAVOS_MM : ℚ := 23/2

/-- `const float RAIO_5_CENTAVOS_MM = 11.0f` -/
def RAIO_5_CENTAVOS_MM : ℚ := 11

/-- `const float RAIO_10_CENTAVOS_MM = 10.0f` -/
def RAIO_10_CENTAVOS_MM : ℚ := 10

/-- A mean hue/saturation/value sample (`cv::mean` over a mask). -/
structure HSV where
  h : ℚ
  s : ℚ
  v : ℚ
deriving DecidableEq

/-- The decision logic of `analisarCorMoeda`, given the mean HSV of the
center disk (inner 60% of the radius) and of the rim annulus (70%-100%). -/
def analisarCorMoedaHSV (corCentro corBorda : HSV) : CorMoeda :=
  if (10 ≤ corBorda.h ∧ corBorda.h ≤ 40 ∧ 100 < corBorda.s) ∧
      (corCentro.s < corBorda.s - 50 ∨ 35 < corCentro.h) then
    CorMoeda.BIMETALICA
  else if 8 ≤ corCentro.h ∧ corCentro.h ≤ 45 ∧ 100 < corCentro.s then
    CorMoeda.DOURADA
  else if corCentro.s < 80 then
    CorMoeda.PRATEADA
  else if 45 < corCentro.h ∨ corCentro.h < 8 then
    CorMoeda.PRATEADA
  else
    CorMoeda.DOURADA

/-- A classified coin (`struct Moeda`). -/
structure Moeda where
  centro : Ponto
  raio : ℚ
  valor : ℚ
  denominacao : String
deriving DecidableEq

/-- The out-of-scope vision collaborators the core consumes, over an
abstract image type `Img`: grayscale conversion, the three denoising
filters, `HoughCircles` (with the pipeline's fixed `param1`/`param2`/
`minDist` defaults), the two mean-HSV samples used by `analisarCorMoeda`,
and result drawing. -/
structure VisaoExterna (Img : Type) where
  cinza : Img → Img
  gaussiano : Img → Img
  mediana : Img → Img
  bilateral : Img → Img
  hough : Img → Int → Int → List Circulo
  corCentroDe : Img → Ponto → ℚ → HSV
  corBordaDe : Img → Ponto → ℚ → HSV
  desenhar : Img → List Moeda → Img

/-- `aplicarFiltragem`: dispatch on the filter kind (0 = Gaussian,
1 = median, 2 = bilateral, anything else = identity/clone). -/
def aplicarFiltragem {Img : Type} (ext : VisaoExterna Img) (imagemCinza : Img)
    (tipoFiltro : Int) : Img :=
  if tipoFiltro = 0 then ext.gaussiano imagemCinza
  else if tipoFiltro = 1 then ext.mediana imagemCinza
  else if tipoFiltro = 2 then ext.bilateral imagemCinza
  else imagemCinza

/-- `analisarCorMoeda`: sample center and rim mean HSV, then decide. -/
def analisarCorMoeda {Img : Type} (ext : VisaoExterna Img) (imagem : Img)
    (centro : Ponto) (raio : ℚ) : CorMoeda :=
  analisarCorMoedaHSV (ext.corCentroDe imagem centro raio) (ext.corBordaDe imagem centro raio)

/-- `struct ReferenciaPorCor`: per-color-family maximum observed radius
and member count (all zero-initialized in the source). -/
structure ReferenciaPorCor where
  maiorRaioDourada : ℚ
  maiorRaioPrateada : ℚ
  maiorRaioBimetalica : ℚ
  countDourada : Nat
  countPrateada : Nat
  countBimetalica : Nat
deriving DecidableEq

/-- The zero-initialized `ReferenciaPorCor ref` local of
`calcularReferenciasPorCor`. -/
def referenciaVazia : ReferenciaPorCor :=
  ReferenciaPorCor.mk 0 0 0 0 0 0

/-- One iteration of the loop body of `calcularReferenciasPorCor`:
update the max radius and count of the matching color family. -/
def atualizarReferencia (ref : ReferenciaPorCor) (raio : ℚ) (cor : CorMoeda) :
    ReferenciaPorCor :=
  match cor with
  | CorMoeda.DOURADA =>
      ReferenciaPorCor.mk
        (if ref.maiorRaioDourada < raio then raio else ref.maiorRaioDourada)
        ref.maiorRaioPrateada ref.maiorRaioBimetalica
        (ref.countDourada + 1) ref.countPrateada ref.countBimetalica
  | CorMoeda.PRATEADA =>
      ReferenciaPorCor.mk
        ref.maiorRaioDourada
        (if ref.maiorRaioPrateada < raio then raio else ref.maiorRaioPrateada)
        ref.maiorRaioBimetalica
        ref.countDourada (ref.countPrateada + 1) ref.countBimetalica
  | CorMoeda.BIMETALICA =>
      ReferenciaPorCor.mk
        ref.maiorRaioDourada ref.maiorRaioPrateada
        (if ref.maiorRaioBimetalica < raio then raio else ref.maiorRaioBimetalica)
        ref.countDourada ref.countPrateada (ref.countBimetalica + 1)

/-- `calcularReferenciasPorCor`: one pass over all circles, analysing each
circle's color and folding it into the reference aggregate. -/
def calcularReferenciasPorCor {Img : Type} (ext : VisaoExterna Img) (imagem : Img)
    (circulos : List Circulo) : ReferenciaPorCor :=
  circulos.foldl
    (fun ref c => atualizarReferencia ref c.raio (analisarCorMoeda ext imagem c.centro c.raio))
    referenciaVazia

/-- `classificarMoedaPorCorETamanho`: combine color family and calibrated
radius ratio into a denomination.  Thresholds 10.5mm, 10.3mm and 12.0mm
and the anchor constants are those of the source. -/
def classificarMoedaPorCorETamanho (raioPixels : ℚ) (cor : CorMoeda)
    (ref : ReferenciaPorCor) : TipoMoeda :=
  match cor with
  | CorMoeda.BIMETALICA => TipoMoeda.UM_REAL
  | CorMoeda.DOURADA =>
      if ref.countDourada = 1 then
        if 0 < ref.maiorRaioPrateada then
          let mmPorPixel := RAIO_50_CENTAVOS_MM / ref.maiorRaioPrateada
          let raioMM := raioPixels * mmPorPixel
          if raioMM < 21/2 then TipoMoeda.DEZ_CENTAVOS else TipoMoeda.CINCO_CENTAVOS
        else
          TipoMoeda.CINCO_CENTAVOS
      else
        let mmPorPixel := RAIO_5_CENTAVOS_MM / ref.maiorRaioDourada
        let raioMM := raioPixels * mmPorPixel
        if raioMM < 103/10 then TipoMoeda.DEZ_CENTAVOS else TipoMoeda.CINCO_CENTAVOS
  | CorMoeda.PRATEADA =>
      if ref.countPrateada = 1 then
        if 0 < ref.maiorRaioDourada then
          let mmPorPixel := RAIO_5_CENTAVOS_MM / ref.maiorRaioDourada
          let raioMM := raioPixels * mmPorPixel
          if raioMM < 12 then TipoMoeda.CINQUENTA_CENTAVOS else TipoMoeda.VINTE_CINCO_CENTAVOS
        else
          TipoMoeda.VINTE_CINCO_CENTAVOS
      else
        let mmPorPixel := RAIO_25_CENTAVOS_MM / ref.maiorRaioPrateada
        let raioMM := raioPixels * mmPorPixel
        if raioMM < 12 then TipoMoeda.CINQUENTA_CENTAVOS else TipoMoeda.VINTE_CINCO_CENTAVOS

/-- Instrumentation of `classificarMoedaPorCorETamanho`: `true` exactly when
the path executed by the source performs a division whose denominator is
zero.  All branching *before* a division depends only on color, counts and
`0 <` guards, so this mirrors the source's control flow: the golden
`count == 1` branch divides only under the `maiorRaioPrateada > 0` guard
(and symmetrically for silver), while the multi-member branches divide by
the family's own max radius unconditionally. -/
def classificarDivideZero (raioPixels : ℚ) (cor : CorMoeda)
    (ref : ReferenciaPorCor) : Bool :=
  match cor with
  | CorMoeda.BIMETALICA => false
  | CorMoeda.DOURADA =>
      if ref.countDourada = 1 then false
      else decide (ref.maiorRaioDourada = 0)
  | CorMoeda.PRATEADA =>
      if ref.countPrateada = 1 then false
      else decide (ref.maiorRaioPrateada = 0)

/-- `obterValorMoeda`: denomination to monetary value. -/
def obterValorMoeda (tipo : TipoMoeda) : ℚ :=
  match tipo with
  | TipoMoeda.CINCO_CENTAVOS => 5/100
  | TipoMoeda.DEZ_CENTAVOS => 10/100
  | TipoMoeda.VINTE_CINCO_CENTAVOS => 25/100
  | TipoMoeda.CINQUENTA_CENTAVOS => 50/100
  | TipoMoeda.UM_REAL => 1
  | TipoMoeda.DESCONHECIDA => 0

/-- `obterNomeDenominacao`: denomination to display label. -/
def obterNomeDenominacao (tipo : TipoMoeda) : String :=
  match tipo with
  | TipoMoeda.CINCO_CENTAVOS => "5 centavos"
  | TipoMoeda.DEZ_CENTAVOS => "10 centavos"
  | TipoMoeda.VINTE_CINCO_CENTAVOS => "25 centavos"
  | TipoMoeda.CINQUENTA_CENTAVOS => "50 centavos"
  | TipoMoeda.UM_REAL => "1 real"
  | TipoMoeda.DESCONHECIDA => "Desconhecida"

/-- The body of the classification loop of `processarMoedas`: build one
`Moeda` from a circle, its (re-analysed) color and the shared reference. -/
def construirMoeda {Img : Type} (ext : VisaoExterna Img) (imagem : Img)
    (ref : ReferenciaPorCor) (c : Circulo) : Moeda :=
  let cor := analisarCorMoeda ext imagem c.centro c.raio
  let tipo := classificarMoedaPorCorETamanho c.raio cor ref
  Moeda.mk c.centro c.raio (obterValorMoeda tipo) (obterNomeDenominacao tipo)

/-- `processarMoedas` (color-aware variant): early-return on an empty circle
list, else a calibration pass followed by a classification pass. -/
def processarMoedas {Img : Type} (ext : VisaoExterna Img) (imagem : Img)
    (circulos : List Circulo) : List Moeda :=
  if circulos.isEmpty then []
  else
    let ref := calcularReferenciasPorCor ext imagem circulos
    circulos.map (construirMoeda ext imagem ref)

/-- `calcularValorTotal`: accumulate `total += moeda.valor` from `0.0`. -/
def calcularValorTotal (moedas : List Moeda) : ℚ :=
  moedas.foldl (fun total moeda => total + moeda.valor) 0

/-- `struct ResultadoDeteccao`. -/
structure ResultadoDeteccao (Img : Type) where
  moedas : List Moeda
  valorTotal : ℚ
  quantidadeTotal : Nat
  imagemProcessada : Img
  imagemResultado : Img
deriving DecidableEq

/-- `detectarEContarMoedas`: the full pipeline (gray, filter, Hough,
classification, totals, drawing). -/
def detectarEContarMoedas {Img : Type} (ext : VisaoExterna Img) (imagemOriginal : Img)
    (tipoFiltro : Int) (minRaio maxRaio : Int) : ResultadoDeteccao Img :=
  let imagemCinza := ext.cinza imagemOriginal
  let imagemFiltrada := aplicarFiltragem ext imagemCinza tipoFiltro
  let circulos := ext.hough imagemFiltrada minRaio maxRaio
  let moedas := processarMoedas ext imagemOriginal circulos
  ResultadoDeteccao.mk moedas (calcularValorTotal moedas) moedas.length
    imagemFiltrada (ext.desenhar imagemOriginal moedas)

/-- Default coin used for (never-exercised) out-of-range list access in the
index-based embedding of `detectarSobreposicoes`. -/
def moedaPadrao : Moeda :=
  Moeda.mk (Ponto.mk 0 0) 0 0 ""

/-- Position `i` of a coin list (the loops of `detectarSobreposicoes` only
touch indices below the length). -/
def moedaEm (moedas : List Moeda) (i : Nat) : Moeda :=
  moedas.getD i moedaPadrao

/-- The overlap test of `detectarSobreposicoes` for one pair:
`norm(c_i - c_j) < (r_i + r_j) * 0.9`, stated in squared form (the square
root of the Euclidean norm is not rational; for a positive right-hand side
the two comparisons are equivalent, and for a non-positive one both are
false since the norm is non-negative). -/
def sobrepoeB (m1 m2 : Moeda) : Bool :=
  let dx := m1.centro.x - m2.centro.x
  let dy := m1.centro.y - m2.centro.y
  let somaRaios := m1.raio + m2.raio
  decide (0 < somaRaios * (9/10) ∧ dx * dx + dy * dy < (somaRaios * (9/10)) * (somaRaios * (9/10)))

/-- `detectarSobreposicoes`: the double loop `i` from `0`, `j` from `i+1`,
emitting `(i, j)` when the overlap test fires. -/
def detectarSobreposicoes (moedas : List Moeda) : List (Nat × Nat) :=
  (List.range moedas.length).flatMap (fun i =>
    (((List.range moedas.length).filter (fun j => decide (i < j))).filter
      (fun j => sobrepoeB (moedaEm moedas i) (moedaEm moedas j))).map (fun j => (i, j)))

/-- A constant silver-looking HSV sample: low saturation, hue outside the
golden range (`analisarCorMoedaHSV` maps it to `PRATEADA`). -/
def hsvPrata : HSV := HSV.mk 90 50 200

/-- A constant golden-looking HSV sample: hue 20, high saturation
(`analisarCorMoedaHSV` maps it to `DOURADA` when used for both regions). -/
def hsvDourada : HSV := HSV.mk 20 150 200

/-- Concrete collaborators over the trivial image type: every sampled
region looks silver, and the Hough detector finds no circles. -/
def extPrata : VisaoExterna Unit :=
  VisaoExterna.mk id id id id (fun _ _ _ => [])
    (fun _ _ _ => hsvPrata) (fun _ _ _ => hsvPrata) (fun i _ => i)

/-- The two-silver-circle scenario of the spec: radii 50px and 46px. -/
def circulosC3 : List Circulo :=
  [Circulo.mk (Ponto.mk 100 100) 50, Circulo.mk (Ponto.mk 300 100) 46]

/-- A single-circle list, radius 50px. -/
def circulosUm : List Circulo :=
  [Circulo.mk (Ponto.mk 100 100) 50]

/-- Modelled from the spec's words, for comparison with the source under
claim C1: the golden-singleton cross-family branch with the anchor rule the
claim states, namely the silver family's largest observed radius paired with
the silver denomination of largest known physical radius (25 centavos,
12.5 mm), thresholded at the boundary between the two golden denominations'
known physical radii (10.5 mm). -/
def classificarDouradaUnicaSegundoEspec (raioPixels : ℚ) (ref : ReferenciaPorCor) : TipoMoeda :=
  let mmPorPixel := RAIO_25_CENTAVOS_MM / ref.maiorRaioPrateada
  let raioMM := raioPixels * mmPorPixel
  if raioMM < 21/2 then TipoMoeda.DEZ_CENTAVOS else TipoMoeda.CINCO_CENTAVOS

/-- A reference describing one golden circle of radius 44px next to one
silver circle of radius 50px (as the calibrator would record them). -/
def refDouradaUnica : ReferenciaPorCor :=
  ReferenciaPorCor.mk 44 50 0 1 1 0

/-- The spec's overlap scenario: two coins with centers 10px apart and
radii 8px and 9px. -/
def moedasCenario : List Moeda :=
  [Moeda.mk (Ponto.mk 0 0) 8 (5/100) "5 centavos",
   Moeda.mk (Ponto.mk 10 0) 9 (10/100) "10 centavos"]

/-- The single coin produced by the pipeline's classification pass on
`circulosUm` under `extPrata`: a lone silver circle with no golden anchor
falls back to "25 centavos". -/
def moedaUm : Moeda := Moeda.mk (Ponto.mk 100 100) 50 (25/100) "25 centavos"

/-! ## Theorems -/

/-- Helper: the running-total loop of `calcularValorTotal` computes the
initial value plus the sum of the coins' values. -/
theorem foldl_valor_eq_add_sum (moedas : List Moeda) (inicial : ℚ) :
    moedas.foldl (fun total moeda => total + moeda.valor) inicial =
      inicial + (moedas.map Moeda.valor).sum := by
  induction moedas generalizing inicial with
  | nil => simp
  | cons m ms ih => simp only [List.foldl_cons, List.map_cons, List.sum_cons, ih]; ring

/-- Helper: `calcularValorTotal` is exactly the sum of the values. -/
theorem calcularValorTotal_eq_sum (moedas : List Moeda) :
    calcularValorTotal moedas = (moedas.map Moeda.valor).sum := by
  simpa using foldl_valor_eq_add_sum moedas 0

/-- C2: for every run of the pipeline, the reported total value equals the
sum of the individual coins' monetary values exactly, in the exact rational
arithmetic of the embedding. -/
theorem valorTotal_eq_soma_valores {Img : Type} (ext : VisaoExterna Img) (imagem : Img)
    (tipoFiltro minRaio maxRaio : Int) :
    (detectarEContarMoedas ext imagem tipoFiltro minRaio maxRaio).valorTotal =
      ((detectarEContarMoedas ext imagem tipoFiltro minRaio maxRaio).moedas.map
        Moeda.valor).sum := by
  simp [detectarEContarMoedas, calcularValorTotal_eq_sum]

/-- C3: on exactly two silver-classified circles of radii 50px and 46px the
calibrator records max radius 50 and count 2 for the silver family, and the
classifier makes the 50px circle "25 centavos" (0.25) and the 46px circle
"50 centavos" (0.50). -/
theorem duas_prateadas_50_46 :
    (calcularReferenciasPorCor extPrata () circulosC3).maiorRaioPrateada = 50 ∧
    (calcularReferenciasPorCor extPrata () circulosC3).countPrateada = 2 ∧
    processarMoedas extPrata () circulosC3 =
      [Moeda.mk (Ponto.mk 100 100) 50 (25/100) "25 centavos",
       Moeda.mk (Ponto.mk 300 100) 46 (50/100) "50 centavos"] := by
  norm_num [circulosC3, extPrata, hsvPrata, processarMoedas, calcularReferenciasPorCor,
    atualizarReferencia, referenciaVazia, analisarCorMoeda, analisarCorMoedaHSV,
    construirMoeda, classificarMoedaPorCorETamanho, obterValorMoeda, obterNomeDenominacao,
    RAIO_25_CENTAVOS_MM, RAIO_50_CENTAVOS_MM, RAIO_5_CENTAVOS_MM]

/-- C7: a bimetallic circle is classified "1 real" (value 1.00)
unconditionally, whatever the radius and the size reference. -/
theorem bimetalica_sempre_um_real (raioPixels : ℚ) (ref : ReferenciaPorCor) :
    classificarMoedaPorCorETamanho raioPixels CorMoeda.BIMETALICA ref = TipoMoeda.UM_REAL ∧
    obterValorMoeda (classificarMoedaPorCorETamanho raioPixels CorMoeda.BIMETALICA ref) = 1 ∧
    obterNomeDenominacao (classificarMoedaPorCorETamanho raioPixels CorMoeda.BIMETALICA ref) =
      "1 real" :=
  ⟨rfl, rfl, rfl⟩

/-- C1 counterexample: for a golden singleton of radius 44px with a silver
reference of max radius 50px, the source (anchored at 50 centavos, 11.5 mm:
44px becomes 10.12 mm) returns "10 centavos", while the claim's rule
(anchored at 25 centavos, 12.5 mm: 44px becomes 11 mm) would return
"5 centavos" — the mm-per-pixel factor is not derived from the silver
denomination of largest known physical radius. -/
theorem ancora_dourada_unica_contraexemplo :
    classificarMoedaPorCorETamanho 44 CorMoeda.DOURADA refDouradaUnica =
      TipoMoeda.DEZ_CENTAVOS ∧
    classificarDouradaUnicaSegundoEspec 44 refDouradaUnica =
      TipoMoeda.CINCO_CENTAVOS := by
  norm_num [refDouradaUnica, classificarMoedaPorCorETamanho, classificarDouradaUnicaSegundoEspec,
    RAIO_25_CENTAVOS_MM, RAIO_50_CENTAVOS_MM]

/-- C1 amended: the largest-observed / largest-known-physical anchor rule
holds on every mm-per-pixel conversion path except one.  It holds within a
family whose member count differs from one (golden: 5 centavos, 11.0 mm;
silver: 25 centavos, 12.5 mm), and it holds for a silver singleton with a
golden reference, which is anchored at the golden family's largest known
physical radius (5 centavos, 11.0 mm).  The one exception: a golden
singleton with a silver reference is anchored at the *smaller* silver
denomination (50 centavos, 11.5 mm), the source assuming the largest
observed silver radius belongs to the 50 centavos coin. -/
theorem regra_de_ancoragem (raioPixels : ℚ) (ref : ReferenciaPorCor) :
    (ref.countDourada ≠ 1 →
      classificarMoedaPorCorETamanho raioPixels CorMoeda.DOURADA ref =
        (if raioPixels * (RAIO_5_CENTAVOS_MM / ref.maiorRaioDourada) < 103/10
         then TipoMoeda.DEZ_CENTAVOS else TipoMoeda.CINCO_CENTAVOS)) ∧
    (ref.countPrateada ≠ 1 →
      classificarMoedaPorCorETamanho raioPixels CorMoeda.PRATEADA ref =
        (if raioPixels * (RAIO_25_CENTAVOS_MM / ref.maiorRaioPrateada) < 12
         then TipoMoeda.CINQUENTA_CENTAVOS else TipoMoeda.VINTE_CINCO_CENTAVOS)) ∧
    (ref.countPrateada = 1 → 0 < ref.maiorRaioDourada →
      classificarMoedaPorCorETamanho raioPixels CorMoeda.PRATEADA ref =
        (if raioPixels * (RAIO_5_CENTAVOS_MM / ref.maiorRaioDourada) < 12
         then TipoMoeda.CINQUENTA_CENTAVOS else TipoMoeda.VINTE_CINCO_CENTAVOS)) ∧
    (ref.countDourada = 1 → 0 < ref.maiorRaioPrateada →
      classificarMoedaPorCorETamanho raioPixels CorMoeda.DOURADA ref =
        (if raioPixels * (RAIO_50_CENTAVOS_MM / ref.maiorRaioPrateada) < 21/2
         then TipoMoeda.DEZ_CENTAVOS else TipoMoeda.CINCO_CENTAVOS)) := by
  refine ⟨fun h1 => ?_, fun h2 => ?_, fun h1 h2 => ?_, fun h1 h2 => ?_⟩
  · simp [classificarMoedaPorCorETamanho, h1]
  · simp [classificarMoedaPorCorETamanho, h2]
  · simp [classificarMoedaPorCorETamanho, h1, h2]
  · simp [classificarMoedaPorCorETamanho, h1, h2]

/-- Witness for the amended C1 theorem: the golden-singleton branch at the
counterexample's reference, and the silver-singleton branch (golden anchor,
11.0 mm) at the same reference. -/
theorem regra_de_ancoragem_witness :
    classificarMoedaPorCorETamanho 44 CorMoeda.DOURADA refDouradaUnica =
      (if (44 : ℚ) * (RAIO_50_CENTAVOS_MM / refDouradaUnica.maiorRaioPrateada) < 21/2
       then TipoMoeda.DEZ_CENTAVOS else TipoMoeda.CINCO_CENTAVOS) ∧
    classificarMoedaPorCorETamanho 50 CorMoeda.PRATEADA refDouradaUnica =
      (if (50 : ℚ) * (RAIO_5_CENTAVOS_MM / refDouradaUnica.maiorRaioDourada) < 12
       then TipoMoeda.CINQUENTA_CENTAVOS else TipoMoeda.VINTE_CINCO_CENTAVOS) :=
  ⟨(regra_de_ancoragem 44 refDouradaUnica).2.2.2 (by norm_num [refDouradaUnica])
      (by norm_num [refDouradaUnica]),
   (regra_de_ancoragem 50 refDouradaUnica).2.2.1 (by norm_num [refDouradaUnica])
      (by norm_num [refDouradaUnica])⟩

/-- Helper: a pair is emitted by `detectarSobreposicoes` exactly when its
components are increasing indices into the list and the overlap test fires. -/
theorem mem_detectarSobreposicoes (moedas : List Moeda) (i j : Nat) :
    (i, j) ∈ detectarSobreposicoes moedas ↔
      i < j ∧ j < moedas.length ∧
        sobrepoeB (moedaEm moedas i) (moedaEm moedas j) = true := by
  simp only [detectarSobreposicoes, List.mem_flatMap, List.mem_map, List.mem_filter,
    List.mem_range, decide_eq_true_eq, Prod.mk.injEq]
  constructor
  · rintro ⟨a, ha, b, ⟨⟨⟨hb, hab⟩, hs⟩, rfl, rfl⟩⟩
    exact ⟨hab, hb, hs⟩
  · rintro ⟨hij, hj, hs⟩
    exact ⟨i, lt_trans hij hj, j, ⟨⟨⟨hj, hij⟩, hs⟩, rfl, rfl⟩⟩

/-- Helper: the squared overlap test of the embedding is equivalent to the
source's comparison of the Euclidean center distance against 0.9 times the
sum of the radii. -/
theorem sobrepoeB_iff_dist (m1 m2 : Moeda) :
    sobrepoeB m1 m2 = true ↔
      Real.sqrt (((m1.centro.x : ℝ) - (m2.centro.x : ℝ)) ^ 2 +
          ((m1.centro.y : ℝ) - (m2.centro.y : ℝ)) ^ 2) <
        (9/10) * ((m1.raio : ℝ) + (m2.raio : ℝ)) := by
  rw [sobrepoeB]
  simp only [decide_eq_true_eq]
  have hd : (0 : ℝ) ≤ ((m1.centro.x : ℝ) - (m2.centro.x : ℝ)) ^ 2 +
      ((m1.centro.y : ℝ) - (m2.centro.y : ℝ)) ^ 2 := by positivity
  constructor
  · rintro ⟨hc, hlt⟩
    have hc' : (0 : ℝ) < ((m1.raio : ℝ) + (m2.raio : ℝ)) * (9/10) := by
      have := (Rat.cast_lt (K := ℝ)).2 hc
      push_cast at this
      linarith
    rw [show (9/10 : ℝ) * ((m1.raio : ℝ) + (m2.raio : ℝ)) =
        ((m1.raio : ℝ) + (m2.raio : ℝ)) * (9/10) by ring]
    rw [Real.sqrt_lt' hc']
    have := (Rat.cast_lt (K := ℝ)).2 hlt
    push_cast at this
    nlinarith [this]
  · intro hlt
    have hge : (0 : ℝ) ≤ Real.sqrt (((m1.centro.x : ℝ) - (m2.centro.x : ℝ)) ^ 2 +
        ((m1.centro.y : ℝ) - (m2.centro.y : ℝ)) ^ 2) := Real.sqrt_nonneg _
    have hc' : (0 : ℝ) < (9/10) * ((m1.raio : ℝ) + (m2.raio : ℝ)) := lt_of_le_of_lt hge hlt
    have hc : (0 : ℚ) < (m1.raio + m2.raio) * (9/10) := by
      rw [show (0 : ℚ) = ((0 : ℚ)) from rfl]
      have : (0 : ℝ) < (((m1.raio + m2.raio) * (9/10) : ℚ) : ℝ) := by
        push_cast
        linarith
      exact_mod_cast this
    refine ⟨hc, ?_⟩
    have hc2 : (0 : ℝ) < ((m1.raio : ℝ) + (m2.raio : ℝ)) * (9/10) := by linarith
    rw [show (9/10 : ℝ) * ((m1.raio : ℝ) + (m2.raio : ℝ)) =
        ((m1.raio : ℝ) + (m2.raio : ℝ)) * (9/10) by ring, Real.sqrt_lt' hc2] at hlt
    have : ((m1.centro.x - m2.centro.x) * (m1.centro.x - m2.centro.x) +
        (m1.centro.y - m2.centro.y) * (m1.centro.y - m2.centro.y) : ℚ) <
        (((m1.raio + m2.raio) * (9/10)) * ((m1.raio + m2.raio) * (9/10)) : ℚ) := by
      rw [show ∀ a b : ℚ, a < b ↔ ((a : ℝ) < (b : ℝ)) from fun a b => (Rat.cast_lt (K := ℝ)).symm]
      push_cast
      nlinarith [hlt]
    exact this

/-- C4: a pair of coins is flagged by `detectarSobreposicoes` exactly when
the Euclidean distance between their centers is strictly below 0.9 times the
sum of their radii (within index range, in canonical order); in particular
the scenario with centers 10px apart and radii 8px and 9px is flagged. -/
theorem sobreposicao_sse_distancia :
    (∀ (moedas : List Moeda) (i j : Nat),
      (i, j) ∈ detectarSobreposicoes moedas ↔
        i < j ∧ j < moedas.length ∧
          Real.sqrt ((((moedaEm moedas i).centro.x : ℝ) - ((moedaEm moedas j).centro.x : ℝ)) ^ 2 +
              (((moedaEm moedas i).centro.y : ℝ) - ((moedaEm moedas j).centro.y : ℝ)) ^ 2) <
            (9/10) * (((moedaEm moedas i).raio : ℝ) + ((moedaEm moedas j).raio : ℝ))) ∧
    (0, 1) ∈ detectarSobreposicoes moedasCenario := by
  constructor
  · intro moedas i j
    rw [mem_detectarSobreposicoes, sobrepoeB_iff_dist]
  · rw [mem_detectarSobreposicoes]
    refine ⟨Nat.zero_lt_one, by norm_num [moedasCenario], ?_⟩
    rw [sobrepoeB]
    norm_num [moedasCenario, moedaEm, moedaPadrao]

/-- C5: the emitted overlap pairs are in canonical order `i < j`, the list
of pairs has no duplicates, the reverse of an emitted pair is never emitted,
and no diagonal pair is ever emitted. -/
theorem sobreposicoes_canonicas (moedas : List Moeda) :
    (∀ p ∈ detectarSobreposicoes moedas, p.1 < p.2) ∧
    (detectarSobreposicoes moedas).Nodup ∧
    (∀ i j, (i, j) ∈ detectarSobreposicoes moedas → (j, i) ∉ detectarSobreposicoes moedas) ∧
    (∀ i, (i, i) ∉ detectarSobreposicoes moedas) := by
  refine ⟨?_, ?_, ?_, ?_⟩
  · rintro ⟨i, j⟩ hp
    exact ((mem_detectarSobreposicoes moedas i j).1 hp).1
  · rw [detectarSobreposicoes, List.nodup_flatMap]
    constructor
    · intro i _
      refine List.Nodup.map ?_ (((List.nodup_range _).filter _).filter _)
      intro a b hab
      simpa using congrArg Prod.snd hab
    · refine (List.nodup_range _).imp ?_
      intro a b hab p hpa hpb
      obtain ⟨ja, _, rfl⟩ := List.mem_map.1 hpa
      obtain ⟨jb, _, h⟩ := List.mem_map.1 hpb
      exact hab (congrArg Prod.fst h).symm
  · intro i j hij hji
    have h1 := ((mem_detectarSobreposicoes moedas i j).1 hij).1
    have h2 := ((mem_detectarSobreposicoes moedas j i).1 hji).1
    exact absurd h1 (not_lt.2 (le_of_lt h2))
  · intro i hii
    exact absurd ((mem_detectarSobreposicoes moedas i i).1 hii).1 (lt_irrefl i)

/-- Witness for C5 at the concrete two-coin scenario list: the diagonal
pair and the reversed pair are absent. -/
theorem sobreposicoes_canonicas_witness :
    (0, 0) ∉ detectarSobreposicoes moedasCenario ∧
    (1, 0) ∉ detectarSobreposicoes moedasCenario :=
  ⟨(sobreposicoes_canonicas moedasCenario).2.2.2 0,
   (sobreposicoes_canonicas moedasCenario).2.2.1 0 1
     (by
       rw [mem_detectarSobreposicoes]
       refine ⟨Nat.zero_lt_one, by norm_num [moedasCenario], ?_⟩
       rw [sobrepoeB]
       norm_num [moedasCenario, moedaEm, moedaPadrao])⟩

/-- Helper: one reference update never decreases the golden max radius. -/
theorem atualizar_dourada_mono (ref : ReferenciaPorCor) (raio : ℚ) (cor : CorMoeda) :
    ref.maiorRaioDourada ≤ (atualizarReferencia ref raio cor).maiorRaioDourada := by
  cases cor <;> simp only [atualizarReferencia] <;> try rfl
  split <;> [linarith; rfl]

/-- Helper: one reference update never decreases the silver max radius. -/
theorem atualizar_prateada_mono (ref : ReferenciaPorCor) (raio : ℚ) (cor : CorMoeda) :
    ref.maiorRaioPrateada ≤ (atualizarReferencia ref raio cor).maiorRaioPrateada := by
  cases cor <;> simp only [atualizarReferencia] <;> try rfl
  split <;> [linarith; rfl]

/-- Helper: the calibration fold never decreases the golden max radius. -/
theorem foldl_dourada_mono (corDe : Circulo → CorMoeda) (circulos : List Circulo)
    (init : ReferenciaPorCor) :
    init.maiorRaioDourada ≤
      (circulos.foldl (fun ref c => atualizarReferencia ref c.raio (corDe c))
        init).maiorRaioDourada := by
  induction circulos generalizing init with
  | nil => exact le_refl _
  | cons c cs ih =>
    exact le_trans (atualizar_dourada_mono init c.raio (corDe c))
      (ih (atualizarReferencia init c.raio (corDe c)))

/-- Helper: the calibration fold never decreases the silver max radius. -/
theorem foldl_prateada_mono (corDe : Circulo → CorMoeda) (circulos : List Circulo)
    (init : ReferenciaPorCor) :
    init.maiorRaioPrateada ≤
      (circulos.foldl (fun ref c => atualizarReferencia ref c.raio (corDe c))
        init).maiorRaioPrateada := by
  induction circulos generalizing init with
  | nil => exact le_refl _
  | cons c cs ih =>
    exact le_trans (atualizar_prateada_mono init c.raio (corDe c))
      (ih (atualizarReferencia init c.raio (corDe c)))

/-- Helper: a golden member's radius bounds the folded golden max radius. -/
theorem raio_le_fold_dourada (corDe : Circulo → CorMoeda) (circulos : List Circulo)
    (c : Circulo) (hc : c ∈ circulos) (hcor : corDe c = CorMoeda.DOURADA)
    (init : ReferenciaPorCor) :
    c.raio ≤
      (circulos.foldl (fun ref c' => atualizarReferencia ref c'.raio (corDe c'))
        init).maiorRaioDourada := by
  induction circulos generalizing init with
  | nil => cases hc
  | cons a as ih =>
    rcases List.mem_cons.1 hc with rfl | hmem
    · refine le_trans ?_ (foldl_dourada_mono corDe as _)
      show c.raio ≤ (atualizarReferencia init c.raio (corDe c)).maiorRaioDourada
      rw [hcor]
      simp only [atualizarReferencia]
      split
      · exact le_refl _
      · linarith [not_lt.1 (by assumption : ¬ init.maiorRaioDourada < c.raio)]
    · exact ih hmem _

/-- Helper: a silver member's radius bounds the folded silver max radius. -/
theorem raio_le_fold_prateada (corDe : Circulo → CorMoeda) (circulos : List Circulo)
    (c : Circulo) (hc : c ∈ circulos) (hcor : corDe c = CorMoeda.PRATEADA)
    (init : ReferenciaPorCor) :
    c.raio ≤
      (circulos.foldl (fun ref c' => atualizarReferencia ref c'.raio (corDe c'))
        init).maiorRaioPrateada := by
  induction circulos generalizing init with
  | nil => cases hc
  | cons a as ih =>
    rcases List.mem_cons.1 hc with rfl | hmem
    · refine le_trans ?_ (foldl_prateada_mono corDe as _)
      show c.raio ≤ (atualizarReferencia init c.raio (corDe c)).maiorRaioPrateada
      rw [hcor]
      simp only [atualizarReferencia]
      split
      · exact le_refl _
      · linarith [not_lt.1 (by assumption : ¬ init.maiorRaioPrateada < c.raio)]
    · exact ih hmem _

/-- C6 counterexample: a golden circle classified against a reference with
zero golden members does *not* short-circuit: the classifier falls into the
multi-member branch and performs the mm-per-pixel division with the zero
golden max radius as denominator. -/
theorem divisao_por_zero_contraexemplo :
    classificarDivideZero 40 CorMoeda.DOURADA referenciaVazia = true := by
  norm_num [classificarDivideZero, referenciaVazia]

/-- C6 amended: for every reference actually produced by the calibration
pass over a circle list containing the circle being classified (with a
positive radius), the classifier performs no division by zero; and the
guarded single-member branches with a missing cross-family anchor
short-circuit to the documented fallback denominations without dividing. -/
theorem sem_divisao_por_zero {Img : Type} (ext : VisaoExterna Img) (imagem : Img)
    (circulos : List Circulo) (c : Circulo) (hc : c ∈ circulos) (hr : 0 < c.raio) :
    classificarDivideZero c.raio (analisarCorMoeda ext imagem c.centro c.raio)
      (calcularReferenciasPorCor ext imagem circulos) = false ∧
    (∀ (raioPixels : ℚ) (ref : ReferenciaPorCor),
      ref.countDourada = 1 → ¬(0 < ref.maiorRaioPrateada) →
      classificarMoedaPorCorETamanho raioPixels CorMoeda.DOURADA ref =
        TipoMoeda.CINCO_CENTAVOS ∧
      classificarDivideZero raioPixels CorMoeda.DOURADA ref = false) ∧
    (∀ (raioPixels : ℚ) (ref : ReferenciaPorCor),
      ref.countPrateada = 1 → ¬(0 < ref.maiorRaioDourada) →
      classificarMoedaPorCorETamanho raioPixels CorMoeda.PRATEADA ref =
        TipoMoeda.VINTE_CINCO_CENTAVOS ∧
      classificarDivideZero raioPixels CorMoeda.PRATEADA ref = false) := by
  refine ⟨?_, ?_, ?_⟩
  · cases hcor : analisarCorMoeda ext imagem c.centro c.raio with
    | DOURADA =>
        have hle := raio_le_fold_dourada
          (fun c' => analisarCorMoeda ext imagem c'.centro c'.raio) circulos c hc hcor
          referenciaVazia
        have hpos : 0 < (calcularReferenciasPorCor ext imagem circulos).maiorRaioDourada :=
          lt_of_lt_of_le hr (by simpa [calcularReferenciasPorCor] using hle)
        simp only [classificarDivideZero]
        split
        · rfl
        · simpa using ne_of_gt hpos
    | PRATEADA =>
        have hle := raio_le_fold_prateada
          (fun c' => analisarCorMoeda ext imagem c'.centro c'.raio) circulos c hc hcor
          referenciaVazia
        have hpos : 0 < (calcularReferenciasPorCor ext imagem circulos).maiorRaioPrateada :=
          lt_of_lt_of_le hr (by simpa [calcularReferenciasPorCor] using hle)
        simp only [classificarDivideZero]
        split
        · rfl
        · simpa using ne_of_gt hpos
    | BIMETALICA => rfl
  · intro raioPixels ref h1 h2
    constructor
    · simp [classificarMoedaPorCorETamanho, h1, h2]
    · simp [classificarDivideZero, h1]
  · intro raioPixels ref h1 h2
    constructor
    · simp [classificarMoedaPorCorETamanho, h1, h2]
    · simp [classificarDivideZero, h1]

/-- Witness for the amended C6 theorem: the lone silver circle of
`circulosUm`, classified against its own calibration reference, triggers no
division by zero. -/
theorem sem_divisao_por_zero_witness :
    classificarDivideZero (Circulo.mk (Ponto.mk 100 100) 50).raio
      (analisarCorMoeda extPrata () (Circulo.mk (Ponto.mk 100 100) 50).centro
        (Circulo.mk (Ponto.mk 100 100) 50).raio)
      (calcularReferenciasPorCor extPrata () circulosUm) = false :=
  (sem_divisao_por_zero extPrata () circulosUm (Circulo.mk (Ponto.mk 100 100) 50)
    (by simp [circulosUm]) (by norm_num)).1

/-- C8: the pipeline is a deterministic function of its inputs — equal
image and equal filter/radius parameters yield an identical
`ResultadoDeteccao`. -/
theorem pipeline_deterministico {Img : Type} (ext : VisaoExterna Img)
    (img1 img2 : Img) (t1 t2 a1 a2 b1 b2 : Int)
    (himg : img1 = img2) (ht : t1 = t2) (ha : a1 = a2) (hb : b1 = b2) :
    detectarEContarMoedas ext img1 t1 a1 b1 = detectarEContarMoedas ext img2 t2 a2 b2 := by
  rw [himg, ht, ha, hb]

/-- Witness for C8 at a concrete image and parameter set. -/
theorem pipeline_deterministico_witness :
    detectarEContarMoedas extPrata () 0 20 150 = detectarEContarMoedas extPrata () 0 20 150 :=
  pipeline_deterministico extPrata () () 0 0 20 20 150 150 rfl rfl rfl rfl

/-- C9: when the circle detector returns the empty list, the pipeline
returns an empty coin sequence with total count 0 and total value 0.00; the
result is an ordinary `ResultadoDeteccao`, not an error (the embedding,
like the source, has no error channel here). -/
theorem lista_vazia_resultado_vazio {Img : Type} (ext : VisaoExterna Img) (imagem : Img)
    (tipoFiltro minRaio maxRaio : Int)
    (h : ext.hough (aplicarFiltragem ext (ext.cinza imagem) tipoFiltro) minRaio maxRaio = []) :
    (detectarEContarMoedas ext imagem tipoFiltro minRaio maxRaio).moedas = [] ∧
    (detectarEContarMoedas ext imagem tipoFiltro minRaio maxRaio).quantidadeTotal = 0 ∧
    (detectarEContarMoedas ext imagem tipoFiltro minRaio maxRaio).valorTotal = 0 := by
  simp [detectarEContarMoedas, h, processarMoedas, calcularValorTotal]

/-- Witness for C9: concrete collaborators whose detector finds nothing. -/
theorem lista_vazia_witness :
    (detectarEContarMoedas extPrata () 0 20 150).moedas = [] ∧
    (detectarEContarMoedas extPrata () 0 20 150).quantidadeTotal = 0 ∧
    (detectarEContarMoedas extPrata () 0 20 150).valorTotal = 0 :=
  lista_vazia_resultado_vazio extPrata () 0 20 150 rfl

/-- Helper: the color-and-size classifier never yields the unknown type. -/
theorem classificar_ne_desconhecida (raioPixels : ℚ) (cor : CorMoeda)
    (ref : ReferenciaPorCor) :
    classificarMoedaPorCorETamanho raioPixels cor ref ≠ TipoMoeda.DESCONHECIDA := by
  cases cor <;> simp only [classificarMoedaPorCorETamanho] <;>
    first
    | (split_ifs <;> simp)
    | simp

/-- Helper: `processarMoedas` on the one-silver-circle list yields exactly
the fallback "25 centavos" coin. -/
theorem processarMoedas_circulosUm :
    processarMoedas extPrata () circulosUm = [moedaUm] := by
  norm_num [processarMoedas, circulosUm, extPrata, hsvPrata, calcularReferenciasPorCor,
    atualizarReferencia, referenciaVazia, analisarCorMoeda, analisarCorMoedaHSV,
    construirMoeda, classificarMoedaPorCorETamanho, obterValorMoeda, obterNomeDenominacao,
    moedaUm]

/-- C10: every coin produced by the color-aware classification pass carries
one of the five known (label, value) pairs; the unknown label
"Desconhecida" and the value 0.0 never appear. -/
theorem moedas_sempre_conhecidas {Img : Type} (ext : VisaoExterna Img) (imagem : Img)
    (circulos : List Circulo) (m : Moeda)
    (hm : m ∈ processarMoedas ext imagem circulos) :
    (m.denominacao, m.valor) ∈
      [("5 centavos", (5/100 : ℚ)), ("10 centavos", 10/100), ("25 centavos", 25/100),
       ("50 centavos", 50/100), ("1 real", 1)] ∧
    m.denominacao ≠ "Desconhecida" ∧ m.valor ≠ 0 := by
  rw [processarMoedas] at hm
  by_cases hemp : circulos.isEmpty
  · rw [if_pos hemp] at hm
    cases hm
  · rw [if_neg hemp] at hm
    obtain ⟨c, _, rfl⟩ := List.mem_map.1 hm
    rw [construirMoeda]
    have hne := classificar_ne_desconhecida c.raio
      (analisarCorMoeda ext imagem c.centro c.raio)
      (calcularReferenciasPorCor ext imagem circulos)
    cases htipo : classificarMoedaPorCorETamanho c.raio
        (analisarCorMoeda ext imagem c.centro c.raio)
        (calcularReferenciasPorCor ext imagem circulos) with
    | DESCONHECIDA => exact absurd htipo hne
    | CINCO_CENTAVOS => refine ⟨by norm_num [obterValorMoeda, obterNomeDenominacao], by simp [obterNomeDenominacao], by norm_num [obterValorMoeda]⟩
    | DEZ_CENTAVOS => refine ⟨by norm_num [obterValorMoeda, obterNomeDenominacao], by simp [obterNomeDenominacao], by norm_num [obterValorMoeda]⟩
    | VINTE_CINCO_CENTAVOS => refine ⟨by norm_num [obterValorMoeda, obterNomeDenominacao], by simp [obterNomeDenominacao], by norm_num [obterValorMoeda]⟩
    | CINQUENTA_CENTAVOS => refine ⟨by norm_num [obterValorMoeda, obterNomeDenominacao], by simp [obterNomeDenominacao], by norm_num [obterValorMoeda]⟩
    | UM_REAL => refine ⟨by norm_num [obterValorMoeda, obterNomeDenominacao], by simp [obterNomeDenominacao], by norm_num [obterValorMoeda]⟩

/-- Witness for C10: the coin produced from the lone silver circle carries
a known (label, value) pair. -/
theorem moedas_sempre_conhecidas_witness :
    (moedaUm.denominacao, moedaUm.valor) ∈
      [("5 centavos", (5/100 : ℚ)), ("10 centavos", 10/100), ("25 centavos", 25/100),
       ("50 centavos", 50/100), ("1 real", 1)] ∧
    moedaUm.denominacao ≠ "Desconhecida" ∧ moedaUm.valor ≠ 0 :=
  moedas_sempre_conhecidas extPrata () circulosUm moedaUm
    (processarMoedas_circulosUm ▸ List.mem_singleton.2 rfl)

end ContadorMoedas
